import Mathlib

/-!
A shallow embedding of the `Poru` orchestration class (node registry and
selection, player registry, packet routing, resolve/decode request building,
activation bootstrap) together with theorems checking the specification's
claims against it.

Strings that travel through the REST URL builder are modelled as lists of
Unicode code points (`List Nat`), so that JavaScript's `encodeURIComponent` /
`decodeURIComponent` pair can be modelled arithmetically (UTF-8 bytes,
percent-escapes) without any floating point or platform dependency.
-/

namespace Poru

/-! ### Percent-encoding codec (model of encodeURIComponent / decodeURIComponent) -/

/-- Uppercase hexadecimal digit character code for a value below 16,
as produced by JavaScript's percent-escaping. -/
def toHexDigit (n : Nat) : Nat :=
  if n < 10 then 48 + n else 55 + n

/-- Value of a hexadecimal digit character code (both cases accepted,
as `decodeURIComponent` accepts them). -/
def fromHexDigit (n : Nat) : Option Nat :=
  if 48 ≤ n ∧ n ≤ 57 then some (n - 48)
  else if 65 ≤ n ∧ n ≤ 70 then some (n - 55)
  else if 97 ≤ n ∧ n ≤ 102 then some (n - 87)
  else none

/-- UTF-8 byte sequence of a code point. -/
def utf8Bytes (v : Nat) : List Nat :=
  if v < 0x80 then [v]
  else if v < 0x800 then [0xC0 + v / 64, 0x80 + v % 64]
  else if v < 0x10000 then [0xE0 + v / 4096, 0x80 + v / 64 % 64, 0x80 + v % 64]
  else [0xF0 + v / 262144, 0x80 + v / 4096 % 64, 0x80 + v / 64 % 64, 0x80 + v % 64]

/-- The characters `encodeURIComponent` leaves unescaped:
`A`-`Z`, `a`-`z`, `0`-`9`, and `- _ . ! ~ * ' ( )` (codes 45 95 46 33 126 42 39 40 41). -/
def isUnescapedCode (n : Nat) : Bool :=
  (65 ≤ n && n ≤ 90) || (97 ≤ n && n ≤ 122) || (48 ≤ n && n ≤ 57) ||
  n == 45 || n == 95 || n == 46 || n == 33 || n == 126 ||
  n == 42 || n == 39 || n == 40 || n == 41

/-- Percent-escape of one code point: kept literally when unescaped, otherwise
each UTF-8 byte becomes `%` (code 37) followed by two uppercase hex digits. -/
def pctEncodeChar (n : Nat) : List Nat :=
  if isUnescapedCode n then [n]
  else (utf8Bytes n).flatMap (fun b => [37, toHexDigit (b / 16), toHexDigit (b % 16)])

/-- Model of `encodeURIComponent` over code-point lists. -/
def pctEncode (l : List Nat) : List Nat :=
  l.flatMap pctEncodeChar

/-- First phase of `decodeURIComponent`: turn percent-escapes back into bytes;
a literal character stands for its own code. -/
def pctDecodeBytes : List Nat → Option (List Nat)
  | [] => some []
  | c :: rest =>
    if c = 37 then
      match rest with
      | h1 :: h2 :: rest2 =>
        match fromHexDigit h1, fromHexDigit h2 with
        | some a, some b => (pctDecodeBytes rest2).map (fun bs => (16 * a + b) :: bs)
        | _, _ => none
      | _ => none
    else (pctDecodeBytes rest).map (fun bs => c :: bs)

mutual

/-- Second phase of `decodeURIComponent`: UTF-8 decoding of the byte list.
A lead byte announces how many continuation bytes follow; `utf8DecodeCont`
folds those continuation bytes into the accumulated code-point value. -/
def utf8Decode : List Nat → Option (List Nat)
  | [] => some []
  | b1 :: rest =>
    if b1 < 0x80 then (utf8Decode rest).map (fun l => b1 :: l)
    else if b1 < 0xC0 then none
    else if b1 < 0xE0 then utf8DecodeCont 1 (b1 - 0xC0) rest
    else if b1 < 0xF0 then utf8DecodeCont 2 (b1 - 0xE0) rest
    else if b1 < 0xF8 then utf8DecodeCont 3 (b1 - 0xF0) rest
    else none
  termination_by l => (l.length, 0)

def utf8DecodeCont : Nat → Nat → List Nat → Option (List Nat)
  | 0, acc, rest => (utf8Decode rest).map (fun l => acc :: l)
  | _ + 1, _, [] => none
  | k + 1, acc, b :: rest =>
    if 0x80 ≤ b && b < 0xC0 then utf8DecodeCont k (acc * 64 + (b - 0x80)) rest
    else none
  termination_by k _ l => (l.length, k + 1)

end

/-- Model of `decodeURIComponent` over code-point lists. -/
def pctDecode (l : List Nat) : Option (List Nat) :=
  (pctDecodeBytes l).bind utf8Decode

/-- Code points of a Lean `String`, the bridge between the `String`-typed
operations and the codec. -/
def strCodes (s : String) : List Nat :=
  s.data.map (fun c => c.toNat)

theorem char_toNat_lt_size (c : Char) : c.toNat < 0x110000 := by
  rcases c.valid with h | h
  · exact Nat.lt_trans h (by norm_num)
  · exact h.2

theorem strCodes_lt (s : String) : ∀ v ∈ strCodes s, v < 0x110000 := by
  intro v hv
  simp only [strCodes, List.mem_map] at hv
  obtain ⟨c, _, rfl⟩ := hv
  exact char_toNat_lt_size c

theorem fromHexDigit_toHexDigit {n : Nat} (h : n < 16) :
    fromHexDigit (toHexDigit n) = some n := by
  simp only [toHexDigit, fromHexDigit]
  split_ifs <;> (try (exfalso; omega)) <;> (congr 1; omega)

theorem utf8Bytes_lt {v : Nat} (h : v < 0x110000) : ∀ b ∈ utf8Bytes v, b < 256 := by
  intro b hb
  simp only [utf8Bytes] at hb
  split_ifs at hb <;> simp only [List.mem_cons, List.mem_singleton,
    List.not_mem_nil, or_false] at hb <;> omega

theorem utf8Decode_utf8Bytes_append {v : Nat} (h : v < 0x110000) (rest : List Nat) :
    utf8Decode (utf8Bytes v ++ rest) = (utf8Decode rest).map (fun l => v :: l) := by
  have hcont : ∀ b : Nat, 0x80 ≤ b → b < 0xC0 → (0x80 ≤ b && b < 0xC0) = true := by
    intro b hb1 hb2
    simp only [Bool.and_eq_true, decide_eq_true_eq]
    omega
  simp only [utf8Bytes]
  split_ifs with h1 h2 h3
  · simp only [List.cons_append, List.nil_append]
    rw [utf8Decode, if_pos h1]
  · simp only [List.cons_append, List.nil_append]
    rw [utf8Decode, if_neg (by omega), if_neg (by omega), if_pos (by omega)]
    rw [utf8DecodeCont, if_pos (hcont _ (by omega) (by omega))]
    rw [utf8DecodeCont]
    have hv : (0xC0 + v / 64 - 0xC0) * 64 + (0x80 + v % 64 - 0x80) = v := by omega
    rw [hv]
  · simp only [List.cons_append, List.nil_append]
    rw [utf8Decode, if_neg (by omega), if_neg (by omega), if_neg (by omega),
      if_pos (by omega)]
    rw [utf8DecodeCont, if_pos (hcont _ (by omega) (by omega))]
    rw [utf8DecodeCont, if_pos (hcont _ (by omega) (by omega))]
    rw [utf8DecodeCont]
    have hv : ((0xE0 + v / 4096 - 0xE0) * 64 + (0x80 + v / 64 % 64 - 0x80)) * 64 +
        (0x80 + v % 64 - 0x80) = v := by omega
    rw [hv]
  · simp only [List.cons_append, List.nil_append]
    rw [utf8Decode, if_neg (by omega), if_neg (by omega), if_neg (by omega),
      if_neg (by omega), if_pos (by omega)]
    rw [utf8DecodeCont, if_pos (hcont _ (by omega) (by omega))]
    rw [utf8DecodeCont, if_pos (hcont _ (by omega) (by omega))]
    rw [utf8DecodeCont, if_pos (hcont _ (by omega) (by omega))]
    rw [utf8DecodeCont]
    have hv : (((0xF0 + v / 262144 - 0xF0) * 64 + (0x80 + v / 4096 % 64 - 0x80)) * 64 +
        (0x80 + v / 64 % 64 - 0x80)) * 64 + (0x80 + v % 64 - 0x80) = v := by omega
    rw [hv]

theorem utf8Decode_flatMap {l : List Nat} (h : ∀ v ∈ l, v < 0x110000) :
    utf8Decode (l.flatMap utf8Bytes) = some l := by
  induction l with
  | nil => rw [List.flatMap_nil, utf8Decode]
  | cons v rest ih =>
    rw [List.flatMap_cons, utf8Decode_utf8Bytes_append (h v (List.mem_cons_self v rest)),
      ih (fun w hw => h w (List.mem_cons_of_mem v hw))]
    rfl

theorem isUnescaped_bounds {n : Nat} (h : isUnescapedCode n = true) :
    n < 128 ∧ n ≠ 37 := by
  simp only [isUnescapedCode, Bool.or_eq_true, Bool.and_eq_true,
    decide_eq_true_eq, beq_iff_eq] at h
  omega

theorem pctDecodeBytes_escaped_append {bs : List Nat} (h : ∀ b ∈ bs, b < 256)
    (rest : List Nat) :
    pctDecodeBytes (bs.flatMap (fun b => [37, toHexDigit (b / 16), toHexDigit (b % 16)])
        ++ rest) = (pctDecodeBytes rest).map (fun l => bs ++ l) := by
  induction bs with
  | nil =>
    simp only [List.flatMap_nil, List.nil_append]
    cases pctDecodeBytes rest <;> rfl
  | cons b bs ih =>
    have hb : b < 256 := h b (List.mem_cons_self b bs)
    rw [List.flatMap_cons, List.append_assoc]
    simp only [List.cons_append, List.nil_append]
    rw [pctDecodeBytes.eq_def]
    dsimp only
    rw [fromHexDigit_toHexDigit (by omega : b / 16 < 16),
      fromHexDigit_toHexDigit (by omega : b % 16 < 16)]
    dsimp only
    rw [if_pos rfl, ih (fun w hw => h w (List.mem_cons_of_mem b hw))]
    have hv : 16 * (b / 16) + b % 16 = b := by omega
    rw [hv]
    cases pctDecodeBytes rest <;> rfl

theorem pctDecodeBytes_pctEncode {l : List Nat} (h : ∀ v ∈ l, v < 0x110000) :
    pctDecodeBytes (pctEncode l) = some (l.flatMap utf8Bytes) := by
  induction l with
  | nil => rfl
  | cons v rest ih =>
    have hv : v < 0x110000 := h v (List.mem_cons_self v rest)
    have ih2 := ih (fun w hw => h w (List.mem_cons_of_mem v hw))
    simp only [pctEncode, List.flatMap_cons] at ih2 ⊢
    by_cases hu : isUnescapedCode v
    · obtain ⟨hlt, hne⟩ := isUnescaped_bounds hu
      rw [pctEncodeChar, if_pos hu]
      simp only [List.cons_append, List.nil_append]
      rw [pctDecodeBytes.eq_def]
      dsimp only
      rw [if_neg hne, ih2]
      have hb : utf8Bytes v = [v] := by rw [utf8Bytes, if_pos (by omega)]
      rw [hb]
      rfl
    · rw [pctEncodeChar, if_neg hu,
        pctDecodeBytes_escaped_append (utf8Bytes_lt hv), ih2]
      rfl

theorem pctDecode_pctEncode {l : List Nat} (h : ∀ v ∈ l, v < 0x110000) :
    pctDecode (pctEncode l) = some l := by
  rw [pctDecode, pctDecodeBytes_pctEncode h, Option.some_bind,
    utf8Decode_flatMap h]

/-! ### Data model

`Map<string, _>` objects are modelled as association lists in insertion order:
JavaScript `Map` iterates in insertion order and `set` on an existing key keeps
the original position.  Load fractions are modelled over `ℚ` (the source works
on JS numbers; the claims at hand never divide by zero or exercise float
rounding).  External collaborators (`Node`, `Player`, plugin and connect/REST
machinery) appear only through the data this layer reads from them. -/

/-- The slice of a `Node` handle this layer reads: connectivity flag, region
list (`node.regions`, possibly absent), the `stats.cpu` snapshot
(`systemLoad`, `cores`, possibly absent) and the penalty score. -/
structure Node where
  name : String
  isConnected : Bool
  regions : Option (List String)
  statsCpu : Option (ℚ × ℚ)
  penalties : ℚ
deriving DecidableEq

/-- The `d` payload of a gateway packet as read by `packetUpdate`:
`guild_id`, optional `user_id`, and an opaque remainder. -/
structure PacketData where
  guild_id : String
  user_id : Option String
  payload : Nat
deriving DecidableEq

/-- A gateway packet: type tag `t` and payload `d`. -/
structure Packet where
  t : String
  d : PacketData
deriving DecidableEq

/-- The `Connection` sub-entity of a player, recording the updates it was
forwarded (its internal handshake logic is an external collaborator). -/
structure Connection where
  serverUpdates : List PacketData
  stateUpdates : List PacketData
deriving DecidableEq

/-- `ConnectionOptions` request payload (source interface). -/
structure ConnectionOptions where
  guildId : String
  voiceChannel : String
  textChannel : String
  deaf : Bool
  mute : Bool
  region : Option String
deriving DecidableEq

/-- The slice of a `Player` this layer owns: identity, binding and the
`Connection` sub-entity receiving forwarded updates. -/
structure Player where
  guildId : String
  nodeName : String
  voiceChannel : String
  textChannel : String
  deaf : Bool
  mute : Bool
  region : Option String
  connection : Connection
deriving DecidableEq

/-- `NodeGroup` descriptor (source interface). -/
structure NodeGroup where
  name : String
  host : String
  port : Nat
  password : String
  secure : Option Bool
  region : Option (List String)
deriving DecidableEq

/-- `ResolveOptions` (source interface); the requester identity is opaque. -/
structure ResolveOptions where
  query : String
  source : Option String
  requester : Option Nat

/-- The `PoruOptions` fields the modelled operations read.  `library` uses
`""` for the absent (falsy) value; `send` and plugin capabilities are opaque.
The remaining configuration fields (autoResume, resume/reconnect tuning,
custom filters, defaultPlatform) are never read by the modelled operations. -/
structure PoruOptions where
  plugins : List Unit
  customPlayer : Option (Node → ConnectionOptions → Player)
  library : String
  send : Option Unit

/-- The mutable fields of the `Poru` instance (`client` and `version` are
never read by the modelled operations). -/
structure PoruState where
  configNodes : List NodeGroup
  options : PoruOptions
  nodes : List (String × Node)
  players : List (String × Player)
  userId : Option String
  isActivated : Bool
  send : Option Unit

/-- Externally observable calls the operations make, in order: registry
insert, `player.connect`, `player.destroy`, `connection.setServersUpdate`,
`connection.setStateUpdate`. -/
inductive Effect where
  | setPlayer (guildId : String) (player : Player)
  | connectPlayer (guildId : String)
  | destroyPlayer (guildId : String)
  | serversUpdate (guildId : String) (d : PacketData)
  | stateUpdate (guildId : String) (d : PacketData)
deriving DecidableEq

/-- The error taxonomy: one constructor per distinct `throw` site message,
plus the implicit JS `TypeError` from reading a property of `undefined`. -/
inductive PoruErr where
  | notActivated
  | nodeRegistryEmpty
  | nodeNotFound
  | noNodesAvailable
  | noNodesResolve
  | sendFunctionRequired
  | typeErrorUndefined
deriving DecidableEq

/-- `Map.get`: first (and only) entry with the key. -/
def mapGet {α : Type} (m : List (String × α)) (k : String) : Option α :=
  (m.find? (fun p => p.1 == k)).map (fun p => p.2)

/-- `Map.set`: replace in place when the key exists (a JS `Map` keeps the
original insertion position), else append. -/
def mapSet {α : Type} : List (String × α) → String → α → List (String × α)
  | [], k, v => [(k, v)]
  | p :: rest, k, v => if p.1 == k then (k, v) :: rest else p :: mapSet rest k v

/-- `Map.delete`. -/
def mapDelete {α : Type} (m : List (String × α)) (k : String) :
    List (String × α) :=
  m.filter (fun p => ¬ p.1 == k)

theorem mapGet_mapSet_self {α : Type} (m : List (String × α)) (k : String) (v : α) :
    mapGet (mapSet m k v) k = some v := by
  induction m with
  | nil => simp [mapSet, mapGet]
  | cons p rest ih =>
    rw [mapSet]
    by_cases hk : (p.1 == k) = true
    · rw [if_pos hk, mapGet, List.find?_cons_of_pos _ (by simp)]
      rfl
    · rw [if_neg hk, mapGet, List.find?_cons_of_neg _ (by simpa using hk)]
      simpa [mapGet] using ih

/-! ### Operations

JavaScript's `Array.prototype.sort` is stable; the numeric comparators
`a.penalties - b.penalties` and `aLoad - bLoad` therefore sort ascending by
the key while keeping the original relative order of equal keys, which
is exactly `List.insertionSort` with the non-strict key order. -/

/-- Comparator key of `getNodeByRegion`'s sort:
`node.stats.cpu ? (systemLoad / cores) * 100 : 0`. -/
def cpuLoad (n : Node) : ℚ :=
  match n.statsCpu with
  | some cpu => cpu.1 / cpu.2 * 100
  | none => 0

/-- Values of the node registry in insertion order (`[...this.nodes.values()]`). -/
def nodeValues (st : PoruState) : List Node :=
  st.nodes.map (fun p => p.2)

/-- Ascending penalty order used by `leastUsedNodes`. -/
def penaltyLe (a b : Node) : Prop :=
  a.penalties ≤ b.penalties

instance : DecidableRel penaltyLe :=
  fun a b => inferInstanceAs (Decidable (a.penalties ≤ b.penalties))

instance : IsTotal Node penaltyLe :=
  ⟨fun a b => le_total a.penalties b.penalties⟩

instance : IsTrans Node penaltyLe :=
  ⟨fun _ _ _ h1 h2 => le_trans h1 h2⟩

/-- Ascending CPU-load order used by `getNodeByRegion`. -/
def cpuLe (a b : Node) : Prop :=
  cpuLoad a ≤ cpuLoad b

instance : DecidableRel cpuLe :=
  fun a b => inferInstanceAs (Decidable (cpuLoad a ≤ cpuLoad b))

instance : IsTotal Node cpuLe :=
  ⟨fun a b => le_total (cpuLoad a) (cpuLoad b)⟩

instance : IsTrans Node cpuLe :=
  ⟨fun _ _ _ h1 h2 => le_trans h1 h2⟩

/-- `get leastUsedNodes()`: connected nodes sorted ascending by penalties. -/
def leastUsedNodes (st : PoruState) : List Node :=
  List.insertionSort penaltyLe ((nodeValues st).filter (fun n => n.isConnected))

/-- JavaScript `toLowerCase` as exercised here (the source compares ASCII
region keywords), applied per character. -/
def strToLower (s : String) : String :=
  String.mk (s.data.map Char.toLower)

/-- `getNodeByRegion(region)`: connected nodes whose region list contains the
lowercased query, sorted ascending by CPU load.  Note the source lowercases
only the query (`region?.toLowerCase()`), not the node's region entries. -/
def getNodeByRegion (st : PoruState) (region : String) : List Node :=
  List.insertionSort cpuLe
    ((nodeValues st).filter (fun n =>
      n.isConnected &&
        (match n.regions with
          | some rs => rs.contains (strToLower region)
          | none => false)))

/-- Modelled from the spec: `Node` handle construction (the `Node` class is
not under `src/`; the spec's data model says the handle wraps the
descriptor's name and optional region list unchanged, while connectivity,
statistics and penalty are runtime data owned by the external node machinery,
starting from their pre-connect defaults). -/
def Node.ofGroup (g : NodeGroup) : Node :=
  { name := g.name
    isConnected := false
    regions := g.region
    statsCpu := none
    penalties := 0 }

/-- `addNode(options)`: construct the handle, key it by name, start its
connection (external effect), return it. -/
def addNode (st : PoruState) (options : NodeGroup) : Node × PoruState :=
  let node := Node.ofGroup options
  (node, { st with nodes := mapSet st.nodes options.name node })

/-- `removeNode(identifier)`: no-op when absent, else disconnect (external
effect) and delete. -/
def removeNode (st : PoruState) (identifier : String) : PoruState :=
  match mapGet st.nodes identifier with
  | none => st
  | some _ => { st with nodes := mapDelete st.nodes identifier }

/-- Result of `getNode`: the untyped source returns either the whole
`leastUsedNodes` array (identifier `"auto"`) or a single node. -/
inductive GetNodeResult where
  | list (nodes : List Node)
  | node (n : Node)
deriving DecidableEq

/-- `getNode(identifier = "auto")`.  A disconnected named node is asked to
reconnect (external effect, not modelled on the returned data). -/
def getNode (st : PoruState) (identifier : String := "auto") :
    Except PoruErr GetNodeResult :=
  if st.nodes.length = 0 then .error .nodeRegistryEmpty
  else if identifier = "auto" then .ok (.list (leastUsedNodes st))
  else
    match mapGet st.nodes identifier with
    | none => .error .nodeNotFound
    | some node => .ok (.node node)

/-- Modelled from the spec: the default `Player` constructor (the `Player`
class is not under `src/`; per the spec's data model a player records the
session key, the bound node, channels, flags, region and a fresh
`Connection`).  A configured custom constructor replaces it unchanged. -/
def defaultPlayer (node : Node) (options : ConnectionOptions) : Player :=
  { guildId := options.guildId
    nodeName := node.name
    voiceChannel := options.voiceChannel
    textChannel := options.textChannel
    deaf := options.deaf
    mute := options.mute
    region := options.region
    connection := { serverUpdates := [], stateUpdates := [] } }

/-- `createPlayer(node, options)`: construct (custom constructor if
configured), register by guild id, then ask the player to connect. -/
def createPlayer (st : PoruState) (node : Node) (options : ConnectionOptions) :
    Player × PoruState × List Effect :=
  let player :=
    match st.options.customPlayer with
    | some ctor => ctor node options
    | none => defaultPlayer node options
  (player,
   { st with players := mapSet st.players options.guildId player },
   [Effect.setPlayer options.guildId player, Effect.connectPlayer options.guildId])

/-- The node-picking branch of `createConnection` (source lines choosing
`node`): with a truthy region, `getNodeByRegion(region)[0]` is read — a
`TypeError` when the regional match is empty — and its (`|| `-defaulted)
name is looked up; otherwise the least-used node's name is looked up.
`lu0` is `leastUsedNodes[0]`, guarded non-empty by the caller. -/
def selectNode (st : PoruState) (options : ConnectionOptions) (lu0 : Node) :
    Except PoruErr (Option Node) :=
  match options.region with
  | some r =>
    if r = "" then .ok (mapGet st.nodes lu0.name)
    else
      match (getNodeByRegion st r).head? with
      | none => .error .typeErrorUndefined
      | some regionNode =>
        .ok (mapGet st.nodes
          (if regionNode.name = "" then lu0.name else regionNode.name))
  | none => .ok (mapGet st.nodes lu0.name)

/-- `createConnection(options)`. -/
def createConnection (st : PoruState) (options : ConnectionOptions) :
    Except PoruErr (Player × PoruState × List Effect) :=
  if !st.isActivated then .error .notActivated
  else
    match mapGet st.players options.guildId with
    | some player => .ok (player, st, [])
    | none =>
      match leastUsedNodes st with
      | [] => .error .noNodesAvailable
      | lu0 :: _ =>
        match selectNode st options lu0 with
        | .error e => .error e
        | .ok none => .error .noNodesAvailable
        | .ok (some node) => .ok (createPlayer st node options)

/-- `removeConnection(guildId)`: `players.get(guildId)?.destroy()`; the
destroy call is the player's own (external) responsibility, the registry
itself is not touched here. -/
def removeConnection (st : PoruState) (guildId : String) :
    PoruState × List Effect :=
  match mapGet st.players guildId with
  | none => (st, [])
  | some _ => (st, [Effect.destroyPlayer guildId])

/-- `get(guildId)`. -/
def get (st : PoruState) (guildId : String) : Option Player :=
  mapGet st.players guildId

/-- `connection.setServersUpdate(packet.d)` on the registered player. -/
def applyServersUpdate (pl : Player) (d : PacketData) : Player :=
  { pl with connection :=
      { pl.connection with serverUpdates := pl.connection.serverUpdates ++ [d] } }

/-- `connection.setStateUpdate(packet.d)` on the registered player. -/
def applyStateUpdate (pl : Player) (d : PacketData) : Player :=
  { pl with connection :=
      { pl.connection with stateUpdates := pl.connection.stateUpdates ++ [d] } }

/-- `packetUpdate(packet)`. -/
def packetUpdate (st : PoruState) (packet : Packet) : PoruState × List Effect :=
  if !(packet.t == "VOICE_STATE_UPDATE" || packet.t == "VOICE_SERVER_UPDATE") then
    (st, [])
  else
    match mapGet st.players packet.d.guild_id with
    | none => (st, [])
    | some player =>
      if packet.t = "VOICE_SERVER_UPDATE" then
        ({ st with players := mapSet st.players packet.d.guild_id (applyServersUpdate player packet.d) },
         [Effect.serversUpdate packet.d.guild_id packet.d])
      else if packet.t = "VOICE_STATE_UPDATE" then
        if packet.d.user_id ≠ st.userId then (st, [])
        else
          ({ st with players := mapSet st.players packet.d.guild_id (applyStateUpdate player packet.d) },
           [Effect.stateUpdate packet.d.guild_id packet.d])
      else (st, [])

/-- The `Poru` constructor: empty registries, no identity, not activated,
`this.send = null` (note: `options.send` is NOT copied here). -/
def mkPoru (nodes : List NodeGroup) (options : PoruOptions) : PoruState :=
  { configNodes := nodes
    options := options
    nodes := []
    players := []
    userId := none
    isActivated := false
    send := none }

/-- The `_nodes.forEach((node) => this.addNode(node))` loop of `init`. -/
def initNodes (st : PoruState) : PoruState :=
  st.configNodes.foldl (fun s ng => (addNode s ng).2) st

/-- The library `switch` at the end of `init`.  The first three variants
install a client-specific send closure and subscribe the raw-packet handler
(external wiring); the `"other"` variant checks `this.send` — still `null`
from the constructor — and throws, else copies `options.send`.  An
unrecognized value falls through the `switch` with no case taken.
JavaScript exceptions leave earlier field mutations in place, so a thrown
error is returned alongside the mutated state. -/
def initLibrary (st : PoruState) : PoruState × Option PoruErr :=
  let lib := if st.options.library = "" then "discord.js" else st.options.library
  let st1 : PoruState := { st with options := { st.options with library := lib } }
  if lib = "discord.js" || lib = "eris" || lib = "oceanic" then
    ({ st1 with send := some () }, none)
  else if lib = "other" then
    if st1.send = none then (st1, some .sendFunctionRequired)
    else ({ st1 with send := st1.options.send }, none)
  else (st1, none)

/-- `init(client)`: no-op when already activated; else record the client's
user id, add every configured node, set `isActivated = true`, run each
plugin's `load` hook (collaborator-defined effects, not modelled), then run
the library switch. -/
def init (st : PoruState) (clientUserId : String) : PoruState × Option PoruErr :=
  if st.isActivated then (st, none)
  else
    initLibrary
      { initNodes { st with userId := some clientUserId } with isActivated := true }

/-- Literal prefix test over code points (first argument is the pattern). -/
def hasPfx : List Nat → List Nat → Bool
  | [], _ => true
  | _ :: _, [] => false
  | p :: ps, c :: cs => p == c && hasPfx ps cs

/-- The `/^https?:\/\//` test of `resolve`. -/
def isUrlQuery (query : String) : Bool :=
  hasPfx (strCodes "http://") (strCodes query) ||
  hasPfx (strCodes "https://") (strCodes query)

/-- Code points of the fixed part of the load-tracks request path. -/
def loadtracksBase : List Nat :=
  strCodes "/v3/loadtracks?identifier="

/-- `resolve({query, source, requester}, node?)`: the produced REST GET path
as code points (the `Response` wrapping of the reply is external).  The node
defaults to `leastUsedNodes[0]`. -/
def resolve (st : PoruState) (opts : ResolveOptions) (node : Option Node) :
    Except PoruErr (Node × List Nat) :=
  if !st.isActivated then .error .notActivated
  else
    match (match node with | some n => some n | none => (leastUsedNodes st).head?) with
    | none => .error .noNodesResolve
    | some n =>
      if isUrlQuery opts.query then
        .ok (n, loadtracksBase ++ pctEncode (strCodes opts.query))
      else
        .ok (n, loadtracksBase ++ pctEncode (strCodes
          ((match opts.source with
            | some s => if s = "" then "ytsearch" else s
            | none => "ytsearch") ++ ":" ++ opts.query)))

/-- `decodeTrack(track, node)`: the produced REST GET path as code points.
The declared parameter is mandatory but the body still defaults a missing
node to `leastUsedNodes[0]`; when that is also absent, reading `.rest` of
`undefined` is a `TypeError`. -/
def decodeTrack (st : PoruState) (track : String) (node : Option Node) :
    Except PoruErr (Node × List Nat) :=
  match (match node with | some n => some n | none => (leastUsedNodes st).head?) with
  | none => .error .typeErrorUndefined
  | some n =>
    .ok (n, strCodes "/v3/decodetrack?encodedTrack=" ++ pctEncode (strCodes track))

/-! ### Concrete fixtures used by counterexamples and witnesses -/

/-- A plain configuration for the default library. -/
def optsDjs : PoruOptions :=
  { plugins := [], customPlayer := none, library := "discord.js", send := none }

/-- Configuration with library `"other"` and a caller-supplied send function. -/
def optsOther : PoruOptions :=
  { plugins := [], customPlayer := none, library := "other", send := some () }

/-- Freshly constructed instance for the `"other"` configuration. -/
def stOther : PoruState :=
  mkPoru [] optsOther

/-- A connected node serving region `"eu"`. -/
def nEu : Node :=
  { name := "node1", isConnected := true, regions := some ["eu"]
    statsCpu := none, penalties := 0 }

/-- Activated state whose only node is `nEu`. -/
def stC1 : PoruState :=
  { configNodes := [], options := optsDjs, nodes := [("node1", nEu)]
    players := [], userId := some "u1", isActivated := true, send := some () }

/-- A connection request for region `"us"`, which no node serves. -/
def optsUs : ConnectionOptions :=
  { guildId := "g1", voiceChannel := "vc1", textChannel := "tc1"
    deaf := false, mute := false, region := some "us" }

/-- Connected node with penalty 0. -/
def nA : Node :=
  { name := "a", isConnected := true, regions := none
    statsCpu := none, penalties := 0 }

/-- Connected node with penalty 1. -/
def nB : Node :=
  { name := "b", isConnected := true, regions := none
    statsCpu := none, penalties := 1 }

/-- Activated state with the two connected nodes `nA`, `nB`. -/
def stTwo : PoruState :=
  { configNodes := [], options := optsDjs, nodes := [("a", nA), ("b", nB)]
    players := [], userId := some "u1", isActivated := true, send := some () }

/-- Connected node whose region list holds the uppercase entry `"EU"`. -/
def nEuUpper : Node :=
  { name := "up", isConnected := true, regions := some ["EU"]
    statsCpu := none, penalties := 0 }

/-- Activated state whose only node is `nEuUpper`. -/
def stUpper : PoruState :=
  { configNodes := [], options := optsDjs, nodes := [("up", nEuUpper)]
    players := [], userId := some "u1", isActivated := true, send := some () }

/-- NOT-activated state that nevertheless has the connected node `nA`. -/
def stIdle : PoruState :=
  { configNodes := [], options := optsDjs, nodes := [("a", nA)]
    players := [], userId := none, isActivated := false, send := none }

/-- Empty, not-activated state. -/
def stEmpty : PoruState :=
  mkPoru [] optsDjs

/-- A connection request without a region preference. -/
def optsG : ConnectionOptions :=
  { guildId := "g1", voiceChannel := "vc1", textChannel := "tc1"
    deaf := false, mute := false, region := none }

/-- The player `createConnection stTwo optsG` constructs (bound to the
least-used node `nA`). -/
def pG : Player :=
  defaultPlayer nA optsG

/-- `stTwo` after that player has been registered. -/
def stTwoP : PoruState :=
  { stTwo with players := [("g1", pG)] }

/-! ### C1 -/

/-- C1: refuted by the code as written — on an activated system with a
connected node (so a global least-used fallback exists) but no node matching
the requested region, `createConnection` does not fall back: it reads
`.name` of `undefined` (`getNodeByRegion(region)[0]` on an empty match) and
dies with a `TypeError` instead of returning a Player. -/
theorem c1_region_miss_crashes :
    leastUsedNodes stC1 = [nEu] ∧
    getNodeByRegion stC1 "us" = [] ∧
    createConnection stC1 optsUs = .error PoruErr.typeErrorUndefined := by
  refine ⟨rfl, rfl, rfl⟩

/-! ### C2 and C3 -/

/-- C2 counterexample: `init` on a fresh `"other"`-library instance raises
`MissingSendFunction`, yet the post-throw state has `isActivated = true` —
the flag was set before adapter-variant selection, so a failed activation
does not leave the system "not activated". -/
theorem c2_activated_despite_missing_send :
    (init stOther "u1").2 = some PoruErr.sendFunctionRequired ∧
    (init stOther "u1").1.isActivated = true := by
  refine ⟨rfl, rfl⟩

/-- C3: the claimed "if and only if no caller-supplied send function is
present" is wrong in one direction — `init` checks `this.send`, which the
constructor unconditionally set to `null`, instead of `this.options.send`,
so activation raises `MissingSendFunction` even though the configuration
carries a send function. -/
theorem c3_send_check_reads_wrong_field :
    stOther.options.send = some () ∧
    (init stOther "u1").2 = some PoruErr.sendFunctionRequired := by
  refine ⟨rfl, rfl⟩

/-! ### C5 -/

/-- C5 counterexample: with two registered connected nodes, `getNode("auto")`
returns the whole `leastUsedNodes` array, not a single node — in particular
not its best element `nA`. -/
theorem c5_auto_returns_whole_array :
    getNode stTwo "auto" = .ok (.list [nA, nB]) ∧
    getNode stTwo "auto" ≠ .ok (.node nA) ∧
    getNode stTwo "auto" ≠ .ok (.node nB) := by
  have hval : getNode stTwo "auto" = .ok (.list [nA, nB]) := rfl
  refine ⟨hval, ?_, ?_⟩ <;> rw [hval] <;> simp

/-- C5 (amended): `getNode("auto")` fails with `NodeRegistryEmpty` on an
empty registry, and otherwise returns the entire `leastUsedNodes` sequence —
the connected nodes as a permutation of the connected subsequence, sorted
ascending by penalty — rather than a single node. -/
theorem getNode_auto_full_list (st : PoruState) :
    (st.nodes.length = 0 → getNode st "auto" = .error PoruErr.nodeRegistryEmpty) ∧
    (st.nodes.length ≠ 0 →
      getNode st "auto" = .ok (.list (leastUsedNodes st)) ∧
      List.Perm (leastUsedNodes st) ((nodeValues st).filter (fun n => n.isConnected)) ∧
      (leastUsedNodes st).Pairwise (fun a b => a.penalties ≤ b.penalties)) := by
  constructor
  · intro h
    rw [getNode, if_pos h]
  · intro h
    refine ⟨?_, ?_, ?_⟩
    · rw [getNode, if_neg h, if_pos rfl]
    · exact List.perm_insertionSort penaltyLe _
    · exact List.sorted_insertionSort penaltyLe _

/-- C5 witness: the amended statement at the empty registry and at the
two-node registry. -/
theorem getNode_auto_full_list_witness :
    getNode stEmpty "auto" = .error PoruErr.nodeRegistryEmpty ∧
    getNode stTwo "auto" = .ok (.list (leastUsedNodes stTwo)) := by
  refine ⟨(getNode_auto_full_list stEmpty).1 rfl, ((getNode_auto_full_list stTwo).2 (by decide)).1⟩

/-! ### C6 -/

/-- The region filter as the specification words it — case-insensitive
containment (both sides lowercased) — kept separate so it can be compared
with the source's `getNodeByRegion`. -/
def specNodesByRegion (st : PoruState) (region : String) : List Node :=
  List.insertionSort cpuLe
    ((nodeValues st).filter (fun n =>
      n.isConnected &&
        (match n.regions with
          | some rs => rs.any (fun r => strToLower r == strToLower region)
          | none => false)))

/-- C6 counterexample: a connected node whose region list holds `"EU"` is a
case-insensitive match for `"eu"`, but the source lowercases only the query
and compares the node's entries verbatim, so `getNodeByRegion "eu"` misses
it. -/
theorem c6_case_insensitive_refuted :
    getNodeByRegion stUpper "eu" = [] ∧
    specNodesByRegion stUpper "eu" = [nEuUpper] ∧
    getNodeByRegion stUpper "eu" ≠ specNodesByRegion stUpper "eu" := by
  have h1 : getNodeByRegion stUpper "eu" = [] := rfl
  have h2 : specNodesByRegion stUpper "eu" = [nEuUpper] := rfl
  refine ⟨h1, h2, ?_⟩
  rw [h1, h2]
  simp

/-- C6 (amended): `getNodeByRegion(region)` returns exactly (a permutation
of) the connected nodes whose region list contains the lowercased query
verbatim — node entries are compared as-is — sorted ascending by
`cpuLoadPercent` (`(systemLoad / cores) * 100` when stats are present, `0`
otherwise); in particular it is empty exactly when no node so matches. -/
theorem getNodeByRegion_characterization (st : PoruState) (region : String) :
    List.Perm (getNodeByRegion st region)
      ((nodeValues st).filter (fun n =>
        n.isConnected &&
          (match n.regions with
            | some rs => rs.contains (strToLower region)
            | none => false))) ∧
    (getNodeByRegion st region).Pairwise (fun a b => cpuLoad a ≤ cpuLoad b) := by
  constructor
  · exact List.perm_insertionSort cpuLe _
  · exact List.sorted_insertionSort cpuLe _

/-! ### C4 -/

theorem selectNode_ne_notActivated (st : PoruState) (opts : ConnectionOptions)
    (lu0 : Node) : selectNode st opts lu0 ≠ .error PoruErr.notActivated := by
  intro h
  cases hr : opts.region with
  | none => simp [selectNode, hr] at h
  | some r =>
    by_cases hre : r = ""
    · simp [selectNode, hr, hre] at h
    · cases hh : (getNodeByRegion st r).head? with
      | none => simp [selectNode, hr, hre, hh] at h
      | some rn => simp [selectNode, hr, hre, hh] at h

/-- C4 counterexample: `getNode` is an orchestration (node-selection) call,
yet on a not-activated system it succeeds instead of failing with
`NotActivated` — the source checks activation only in `createConnection` and
`resolve`. -/
theorem c4_unactivated_getNode_succeeds :
    stIdle.isActivated = false ∧
    getNode stIdle "auto" = .ok (.list [nA]) := by
  refine ⟨rfl, rfl⟩

/-- C4 (amended): only `createConnection` and `resolve` are gated on
activation — they fail with `NotActivated` exactly while `isActivated` is
false and never once it is true — while `getNode`, `addNode`, `removeNode`,
`removeConnection` and `decodeTrack` perform no activation check at all
(their behaviour is independent of the flag). -/
theorem activation_gates_only_create_and_resolve
    (st : PoruState) (opts : ConnectionOptions) (ro : ResolveOptions)
    (nd : Option Node) (idf nm gid tr : String) (ng : NodeGroup) (b : Bool) :
    (st.isActivated = false →
      createConnection st opts = .error PoruErr.notActivated ∧
      resolve st ro nd = .error PoruErr.notActivated) ∧
    (st.isActivated = true →
      createConnection st opts ≠ .error PoruErr.notActivated ∧
      resolve st ro nd ≠ .error PoruErr.notActivated) ∧
    getNode { st with isActivated := b } idf = getNode st idf ∧
    addNode { st with isActivated := b } ng =
      ((addNode st ng).1, { (addNode st ng).2 with isActivated := b }) ∧
    removeNode { st with isActivated := b } nm =
      { removeNode st nm with isActivated := b } ∧
    removeConnection { st with isActivated := b } gid =
      ({ (removeConnection st gid).1 with isActivated := b },
        (removeConnection st gid).2) ∧
    decodeTrack { st with isActivated := b } tr nd = decodeTrack st tr nd := by
  refine ⟨?_, ?_, rfl, rfl, ?_, ?_, rfl⟩
  · intro h
    constructor
    · rw [createConnection, if_pos (by simp [h])]
    · rw [resolve.eq_def, if_pos (by simp [h])]
  · intro h
    constructor
    · intro hc
      rw [createConnection, if_neg (by simp [h])] at hc
      split at hc
      · simp at hc
      · split at hc
        · simp at hc
        · split at hc
          · rename_i e heq
            simp only [Except.error.injEq] at hc
            subst hc
            exact selectNode_ne_notActivated _ _ _ heq
          · simp at hc
          · simp at hc
    · intro hc
      rw [resolve.eq_def, if_neg (by simp [h])] at hc
      split at hc
      · simp at hc
      · split_ifs at hc
  · cases hm : mapGet st.nodes nm <;> simp [removeNode, hm]
  · cases hm : mapGet st.players gid <;> simp [removeConnection, hm]

/-- C4 witness: the amended statement at a concrete not-activated state. -/
theorem activation_gates_witness :
    createConnection stIdle optsUs = .error PoruErr.notActivated :=
  ((activation_gates_only_create_and_resolve stIdle optsUs
      ⟨"q", none, none⟩ none "auto" "a" "g1" "t" ⟨"n", "h", 1, "p", none, none⟩ true).1
    rfl).1

/-! ### C8 -/

/-- C8: a packet whose kind is neither voice-state-update nor
voice-server-update, or whose session key has no registered player, or which
is a voice-state-update whose acting user differs from the system identity,
is silently dropped: `packetUpdate` returns the state unchanged, performs no
connection call and raises nothing. -/
theorem packetUpdate_miss_silent (st : PoruState) (p : Packet)
    (h : (p.t ≠ "VOICE_STATE_UPDATE" ∧ p.t ≠ "VOICE_SERVER_UPDATE") ∨
        mapGet st.players p.d.guild_id = none ∨
        (p.t = "VOICE_STATE_UPDATE" ∧ p.d.user_id ≠ st.userId)) :
    packetUpdate st p = (st, []) := by
  rw [packetUpdate]
  rcases h with ⟨h1, h2⟩ | h | ⟨h1, h2⟩
  · rw [if_pos (by simp [h1, h2])]
  · by_cases hk : (p.t == "VOICE_STATE_UPDATE" || p.t == "VOICE_SERVER_UPDATE") = true
    · rw [if_neg (by simp [hk]), h]
    · rw [if_pos (by simp only [Bool.not_eq_true] at hk; simp [hk])]
  · rw [if_neg (by simp [h1])]
    cases hm : mapGet st.players p.d.guild_id with
    | none => rfl
    | some player =>
      dsimp only
      rw [if_neg (by rw [h1]; decide), if_pos h1, if_pos h2]

/-- C8 witness: a packet of an unrelated kind is dropped on a concrete
state. -/
theorem packetUpdate_miss_silent_witness :
    packetUpdate stTwo { t := "PRESENCE_UPDATE", d := { guild_id := "g1", user_id := none, payload := 0 } } = (stTwo, []) :=
  packetUpdate_miss_silent stTwo _ (Or.inl ⟨by decide, by decide⟩)

/-! ### C2 (amended) -/

theorem initLibrary_fst_isActivated (st : PoruState) :
    (initLibrary st).1.isActivated = st.isActivated := by
  simp only [initLibrary]
  split_ifs <;> rfl

/-- C2 (amended): `init` on a not-activated system sets `isActivated = true`
after node construction but before plugin loading and adapter-variant
selection; the post-call state is therefore activated even when `init`
raises `MissingSendFunction`. -/
theorem init_always_activates (st : PoruState) (uid : String)
    (h : st.isActivated = false) :
    (init st uid).1.isActivated = true := by
  rw [init, if_neg (by simp [h]), initLibrary_fst_isActivated]

/-- C2 witness: the amended statement at the fresh `"other"` instance. -/
theorem init_always_activates_witness :
    (init stOther "u1").1.isActivated = true :=
  init_always_activates stOther "u1" rfl

/-! ### C7 -/

/-- C7: `createConnection` is an idempotent get-or-create — whenever a call
returns a player, an immediately following call with the same options
returns the same player and the same state, performing no construction and
no connect call (its effect list is empty). -/
theorem createConnection_idempotent (st : PoruState) (opts : ConnectionOptions)
    (p : Player) (st2 : PoruState) (effs : List Effect)
    (h : createConnection st opts = .ok (p, st2, effs)) :
    createConnection st2 opts = .ok (p, st2, []) := by
  rw [createConnection] at h
  by_cases hA : st.isActivated
  case neg =>
    rw [if_pos (by simp [hA])] at h
    simp at h
  case pos =>
    rw [if_neg (by simp [hA])] at h
    cases hP : mapGet st.players opts.guildId with
    | some q =>
      rw [hP] at h
      dsimp only at h
      simp only [Except.ok.injEq, Prod.mk.injEq] at h
      obtain ⟨rfl, rfl, rfl⟩ := h
      rw [createConnection, if_neg (by simp [hA]), hP]
    | none =>
      rw [hP] at h
      dsimp only at h
      cases hL : leastUsedNodes st with
      | nil =>
        rw [hL] at h
        simp at h
      | cons lu0 rest =>
        rw [hL] at h
        dsimp only at h
        cases hS : selectNode st opts lu0 with
        | error e =>
          rw [hS] at h
          simp at h
        | ok onode =>
          cases onode with
          | none =>
            rw [hS] at h
            simp at h
          | some node =>
            rw [hS] at h
            dsimp only at h
            rw [createPlayer] at h
            simp only [Except.ok.injEq, Prod.mk.injEq] at h
            obtain ⟨rfl, rfl, rfl⟩ := h
            rw [createConnection]
            dsimp only
            rw [if_neg (by simp [hA]), mapGet_mapSet_self]

/-- C7 witness: a concrete first call creates and registers a player; the
theorem then gives the second call back unchanged. -/
theorem createConnection_idempotent_witness :
    createConnection stTwoP optsG = .ok (pG, stTwoP, []) :=
  createConnection_idempotent stTwo optsG pG stTwoP
    [Effect.setPlayer "g1" pG, Effect.connectPlayer "g1"] rfl

/-! ### C10 -/

/-- C10: when `createConnection` constructs a new player (none registered
for the session key), the registry insertion effect precedes the player's
connect effect, and afterwards `get` returns exactly the returned player. -/
theorem player_registered_before_connect (st : PoruState)
    (opts : ConnectionOptions) (p : Player) (st2 : PoruState)
    (effs : List Effect)
    (hnew : mapGet st.players opts.guildId = none)
    (h : createConnection st opts = .ok (p, st2, effs)) :
    effs = [Effect.setPlayer opts.guildId p, Effect.connectPlayer opts.guildId] ∧
    get st2 opts.guildId = some p := by
  rw [createConnection] at h
  by_cases hA : st.isActivated
  case neg =>
    rw [if_pos (by simp [hA])] at h
    simp at h
  case pos =>
    rw [if_neg (by simp [hA]), hnew] at h
    dsimp only at h
    cases hL : leastUsedNodes st with
    | nil =>
      rw [hL] at h
      simp at h
    | cons lu0 rest =>
      rw [hL] at h
      dsimp only at h
      cases hS : selectNode st opts lu0 with
      | error e =>
        rw [hS] at h
        simp at h
      | ok onode =>
        cases onode with
        | none =>
          rw [hS] at h
          simp at h
        | some node =>
          rw [hS] at h
          dsimp only at h
          rw [createPlayer] at h
          simp only [Except.ok.injEq, Prod.mk.injEq] at h
          obtain ⟨rfl, rfl, rfl⟩ := h
          refine ⟨rfl, ?_⟩
          rw [get]
          dsimp only
          rw [mapGet_mapSet_self]

/-- C10 witness: after the concrete creating call, `get` returns the created
player. -/
theorem player_registered_before_connect_witness :
    get stTwoP "g1" = some pG :=
  (player_registered_before_connect stTwo optsG pG stTwoP
    [Effect.setPlayer "g1" pG, Effect.connectPlayer "g1"] rfl rfl).2

/-! ### C9 -/

/-- C9: on an activated system with an available node, the load-tracks
request is the fixed base followed by the percent-encoded identifier, and
the identifier, once percent-decoded, is the query verbatim for
`http://`/`https://` queries and `"{source or default ytsearch}:{query}"`
otherwise. -/
theorem resolve_identifier_decodes (st : PoruState) (q : String)
    (src : Option String) (req : Option Nat) (nd : Option Node)
    (hA : st.isActivated = true)
    (hn : nd = none → leastUsedNodes st ≠ [])
    (hs : src ≠ some "") :
    ∃ n enc, resolve st ⟨q, src, req⟩ nd = .ok (n, loadtracksBase ++ enc) ∧
      pctDecode enc = some (strCodes (if isUrlQuery q then q
        else (src.getD "ytsearch") ++ ":" ++ q)) := by
  rw [resolve.eq_def, if_neg (by simp [hA])]
  have hnode : ∃ n0, (match nd with
      | some n => some n
      | none => (leastUsedNodes st).head?) = some n0 := by
    cases nd with
    | some n => exact ⟨n, rfl⟩
    | none =>
      cases hL : (leastUsedNodes st).head? with
      | none => exact absurd (List.head?_eq_none_iff.mp hL) (hn rfl)
      | some n => exact ⟨n, rfl⟩
  obtain ⟨n0, hn0⟩ := hnode
  rw [hn0]
  dsimp only
  by_cases hq : isUrlQuery q
  · rw [if_pos hq, if_pos hq]
    exact ⟨n0, pctEncode (strCodes q), rfl, pctDecode_pctEncode (strCodes_lt q)⟩
  · rw [if_neg hq, if_neg hq]
    refine ⟨n0, _, rfl, ?_⟩
    rw [pctDecode_pctEncode (strCodes_lt _)]
    congr 2
    cases src with
    | none => rfl
    | some s =>
      dsimp only
      rw [if_neg (fun hempty => hs (by rw [hempty]))]
      rfl

/-- C9 witness: the non-URL search query `"rick astley"` with source
`"ytsearch"` on a concrete activated two-node system. -/
theorem resolve_identifier_decodes_witness :
    ∃ n enc, resolve stTwo ⟨"rick astley", some "ytsearch", none⟩ none =
        .ok (n, loadtracksBase ++ enc) ∧
      pctDecode enc = some (strCodes (if isUrlQuery "rick astley" then "rick astley"
        else ((some "ytsearch").getD "ytsearch") ++ ":" ++ "rick astley")) :=
  resolve_identifier_decodes stTwo "rick astley" (some "ytsearch") none none rfl
    (fun _ => by decide) (by decide)

end Poru
